import Mathlib

/-!
Shallow embedding of the `ServerPumpChatClient` class
(`src/ServerPumpChatClient.ts`) and of the connection registry in the
`chat-debug` API route (`src/app/api/chat-debug/route.ts`).

Pure methods become Lean functions on the client state; the socket /
timer callbacks become explicit machine events acting on the state.
Instrumentation fields (`liveTransports`, `watchdogs`, `events`,
`scheduledReconnects`, `connectAttempts`) record externally observable
effects (open transports, armed timers, emitted events) that the
JavaScript runtime keeps implicitly.
-/

namespace PumpChat

/-- The `IMessage` interface (src/ServerPumpChatClient.ts, lines 12-22). -/
structure IMessage where
  id : String
  roomId : String
  username : String
  userAddress : String
  message : String
  profile_image : String
  timestamp : String
  messageType : String
  expiresAt : Int
deriving DecidableEq, Repr, Inhabited

/-- JavaScript `Array.prototype.slice(start)` for a single, possibly
negative, start index: a negative start is clamped to
`max(length + start, 0)`. -/
def jsSliceFrom (l : List IMessage) (start : Int) : List IMessage :=
  if start < 0 then l.drop (max ((l.length : Int) + start) 0).toNat
  else l.drop start.toNat

/-- `handleNewMessage` (lines 246-252): push the message, then `shift`
away the oldest entry when the length exceeds `messageHistoryLimit`. -/
def handleNewMessage (messageHistoryLimit : Nat) (messageHistory : List IMessage)
    (m : IMessage) : List IMessage :=
  let h := messageHistory ++ [m]
  if messageHistoryLimit < h.length then h.tail else h

/-- `handleMessageHistory` (lines 254-257): the new buffer is
`messages.slice(-messageHistoryLimit)`; the method then emits a
`messageHistory` event carrying the new buffer. The first component is
the new buffer, the second the payload of the emitted event. -/
def handleMessageHistory (messageHistoryLimit : Nat) (messages : List IMessage) :
    List IMessage × List IMessage :=
  let newHistory := jsSliceFrom messages (-(messageHistoryLimit : Int))
  (newHistory, newHistory)

/-- `getMessages` (lines 314-319): `if (limit)` is a JavaScript
truthiness test, so both a missing argument and `limit = 0` take the
copy-everything branch. -/
def getMessages (messageHistory : List IMessage) (limit : Option Nat) : List IMessage :=
  match limit with
  | some l => if l ≠ 0 then jsSliceFrom messageHistory (-(l : Int)) else messageHistory
  | none => messageHistory

/-- Repeated single-message insertion into an initially empty buffer. -/
def insertAll (messageHistoryLimit : Nat) (ms : List IMessage) : List IMessage :=
  ms.foldl (handleNewMessage messageHistoryLimit) []

/-- Sample message used to instantiate universally quantified theorems. -/
def msg (i : Int) : IMessage :=
  { id := "", roomId := "", username := "", userAddress := "", message := "",
    profile_image := "", timestamp := "", messageType := "", expiresAt := i }

lemma handleNewMessage_small (limit : Nat) (hist : List IMessage) (m : IMessage)
    (h : hist.length < limit) :
    handleNewMessage limit hist m = hist ++ [m] := by
  simp only [handleNewMessage]
  rw [if_neg]
  simp
  omega

lemma insertAll_go (limit : Nat) :
    ∀ (ms acc : List IMessage), acc.length + ms.length ≤ limit →
      ms.foldl (handleNewMessage limit) acc = acc ++ ms := by
  intro ms
  induction ms with
  | nil => intro acc _; simp
  | cons m rest ih =>
    intro acc h
    simp only [List.foldl_cons]
    rw [handleNewMessage_small limit acc m (by simp at h; omega)]
    rw [ih (acc ++ [m]) (by simp at h ⊢; omega)]
    simp

/-- Events emitted through the `EventEmitter` base class. -/
inductive EmittedEvent where
  | connected
  | disconnected
  | errorEv
  | maxReconnectsReached
  | serverError (reason : String)
deriving DecidableEq, Repr

/-- State of one `ServerPumpChatClient` instance. The first six fields
are the class fields (lines 33-45); the remaining fields record
observable effects: ids of transports created by `io(...)` and not yet
closed, the number of armed 20-second connect-timeout watchdogs
(line 153), the emitted events, and counters of scheduled reconnects
and of `io(...)` connection attempts. -/
structure ClientState where
  socket : Option Nat
  isConnected : Bool
  reconnectAttempts : Nat
  reconnectTimeout : Option Nat
  isReconnecting : Bool
  shouldReconnect : Bool
  maxReconnectAttempts : Nat
  liveTransports : List Nat
  nextId : Nat
  watchdogs : Nat
  events : List EmittedEvent
  scheduledReconnects : Nat
  connectAttempts : Nat
deriving DecidableEq, Repr

/-- A freshly constructed client (constructor, lines 47-54). -/
def mkClient (maxReconnectAttempts : Nat) : ClientState :=
  { socket := none, isConnected := false, reconnectAttempts := 0,
    reconnectTimeout := none, isReconnecting := false, shouldReconnect := true,
    maxReconnectAttempts := maxReconnectAttempts, liveTransports := [],
    nextId := 0, watchdogs := 0, events := [], scheduledReconnects := 0,
    connectAttempts := 0 }

/-- `scheduleReconnection` (lines 268-291): bail out while already
reconnecting or once reconnection is disabled; emit
`maxReconnectsReached` when the attempt counter has reached the cap;
otherwise increment the counter and arm the backoff timer with delay
`min(1000 * 2^(attempts-1), 16000)`. -/
def scheduleReconnection (s : ClientState) : ClientState :=
  if s.isReconnecting || !s.shouldReconnect then s
  else if s.reconnectAttempts ≥ s.maxReconnectAttempts then
    { s with events := s.events ++ [EmittedEvent.maxReconnectsReached] }
  else
    let s1 := { s with isReconnecting := true,
                       reconnectAttempts := s.reconnectAttempts + 1 }
    let delay := min (1000 * 2 ^ (s1.reconnectAttempts - 1)) 16000
    { s1 with reconnectTimeout := some delay,
              scheduledReconnects := s1.scheduledReconnects + 1 }

/-- `connect` (lines 68-101): clear a pending reconnect timer, create a
fresh transport with `io(...)` (the previous one, if any, is neither
closed nor referenced any more), and attach handlers, which also arms a
new 20-second connect-timeout watchdog (line 153). -/
def connect (s : ClientState) : ClientState :=
  let s1 := if s.reconnectTimeout.isSome then { s with reconnectTimeout := none } else s
  { s1 with socket := some s1.nextId,
            nextId := s1.nextId + 1,
            liveTransports := s1.liveTransports ++ [s1.nextId],
            watchdogs := s1.watchdogs + 1,
            connectAttempts := s1.connectAttempts + 1 }

/-- The socket `connect` handler (lines 108-119); the delayed
`joinRoom` call only sends socket messages, which this state does not
track. -/
def onSocketConnect (s : ClientState) : ClientState :=
  { s with isConnected := true, reconnectAttempts := 0, isReconnecting := false,
           events := s.events ++ [EmittedEvent.connected] }

/-- The socket `disconnect` handler (lines 121-130). -/
def onSocketDisconnect (reason : String) (s : ClientState) : ClientState :=
  let s1 := { s with isConnected := false,
                     events := s.events ++ [EmittedEvent.disconnected] }
  if s1.shouldReconnect && reason != "io client disconnect" then
    scheduleReconnection s1
  else s1

/-- The socket `connect_error` handler (lines 132-145). -/
def onConnectError (s : ClientState) : ClientState :=
  let s1 := { s with events := s.events ++ [EmittedEvent.errorEv] }
  if s1.shouldReconnect then scheduleReconnection s1 else s1

/-- Expiry of the armed reconnect backoff timer (lines 287-290): clear
the timer reference, then call `connect`. An unarmed timer cannot
fire. -/
def fireReconnectTimer (s : ClientState) : ClientState :=
  match s.reconnectTimeout with
  | some _ => connect { s with reconnectTimeout := none }
  | none => s

/-- Expiry of one armed connect-timeout watchdog (lines 153-159): when
still not connected and a socket exists, close that transport and call
`scheduleReconnection`; otherwise do nothing. -/
def fireWatchdog (s : ClientState) : ClientState :=
  if s.watchdogs = 0 then s
  else
    let s1 := { s with watchdogs := s.watchdogs - 1 }
    match s1.socket, s1.isConnected with
    | some sid, false =>
        scheduleReconnection
          { s1 with liveTransports := s1.liveTransports.filter (fun t => t != sid) }
    | _, _ => s1

/-- `disconnect` (lines 293-312): disable reconnection, clear a pending
reconnect timer, close and drop the transport, reset the connected and
reconnecting flags. The connect-timeout watchdog is not stored anywhere
and is therefore left armed. -/
def disconnect (s : ClientState) : ClientState :=
  let s1 := { s with shouldReconnect := false }
  let s2 := if s1.reconnectTimeout.isSome then { s1 with reconnectTimeout := none } else s1
  let s3 := match s2.socket with
    | some sid => { s2 with socket := none,
                            liveTransports := s2.liveTransports.filter (fun t => t != sid) }
    | none => s2
  { s3 with isConnected := false, isReconnecting := false }

/-- External events driving a client: transport callbacks, timer
expiries and the public API calls. -/
inductive SEvent where
  | sockConnect
  | sockDisconnect (reason : String)
  | sockConnectError
  | timerFire
  | watchdogFire
  | callConnect
  | callDisconnect
deriving DecidableEq, Repr

/-- One step of the event-driven machine. -/
def step (e : SEvent) (s : ClientState) : ClientState :=
  match e with
  | SEvent.sockConnect => onSocketConnect s
  | SEvent.sockDisconnect r => onSocketDisconnect r s
  | SEvent.sockConnectError => onConnectError s
  | SEvent.timerFire => fireReconnectTimer s
  | SEvent.watchdogFire => fireWatchdog s
  | SEvent.callConnect => connect s
  | SEvent.callDisconnect => disconnect s

/-- Run a trace of events. -/
def run (s : ClientState) (es : List SEvent) : ClientState :=
  es.foldl (fun a e => step e a) s

/-- The `Stopped` configuration the spec attributes to an explicit
`disconnect()`. -/
def Stopped (s : ClientState) : Prop :=
  s.shouldReconnect = false ∧ s.reconnectTimeout = none ∧ s.socket = none ∧
    s.isConnected = false ∧ s.isReconnecting = false

/-- C3: into an initially empty buffer of capacity `N > 0`, `k ≤ N`
single-message insertions leave exactly those `k` messages (so length
`k`); one further insertion at capacity evicts exactly the oldest entry,
leaving the remaining messages in arrival order with length `N`. -/
theorem buffer_fifo_insert (N : Nat) (hN : 0 < N) :
    (∀ ms : List IMessage, ms.length ≤ N →
      insertAll N ms = ms ∧ (insertAll N ms).length = ms.length) ∧
    (∀ (buf : List IMessage) (m : IMessage), buf.length = N →
      handleNewMessage N buf m = buf.tail ++ [m] ∧
      (handleNewMessage N buf m).length = N) := by
  constructor
  · intro ms hms
    have h1 : insertAll N ms = ms := by
      have := insertAll_go N ms [] (by simpa using hms)
      simpa [insertAll] using this
    exact ⟨h1, by rw [h1]⟩
  · intro buf m hbuf
    cases buf with
    | nil => simp at hbuf; omega
    | cons b bs =>
      simp only [handleNewMessage]
      rw [if_pos (by simp at hbuf ⊢; omega)]
      constructor
      · simp
      · simp at hbuf ⊢
        omega

theorem buffer_fifo_insert_witness :
    insertAll 2 [msg 1, msg 2] = [msg 1, msg 2] ∧
    handleNewMessage 2 [msg 1, msg 2] (msg 3) = [msg 2, msg 3] := by
  have h := buffer_fifo_insert 2 (by decide)
  refine ⟨(h.1 [msg 1, msg 2] (by simp)).1, ?_⟩
  have h2 := (h.2 [msg 1, msg 2] (msg 3) (by simp)).1
  simpa using h2

/-- C4: replacing the history with a list of `M > N` messages keeps
exactly the last `N` of them in their original relative order, and the
emitted `messageHistory` payload is exactly that truncated buffer. -/
theorem history_replace_truncates (N : Nat) (msgs : List IMessage)
    (hN : 0 < N) (hM : N < msgs.length) :
    (handleMessageHistory N msgs).1 = msgs.drop (msgs.length - N) ∧
    (handleMessageHistory N msgs).2 = (handleMessageHistory N msgs).1 ∧
    (handleMessageHistory N msgs).1.length = N ∧
    msgs.take (msgs.length - N) ++ (handleMessageHistory N msgs).1 = msgs := by
  have key : (handleMessageHistory N msgs).1 = msgs.drop (msgs.length - N) := by
    simp only [handleMessageHistory, jsSliceFrom]
    rw [if_pos (by omega)]
    congr 1
    omega
  refine ⟨key, rfl, ?_, ?_⟩
  · rw [key]
    simp
    omega
  · rw [key]
    exact List.take_append_drop _ _

theorem history_replace_truncates_witness :
    (handleMessageHistory 2 [msg 1, msg 2, msg 3]).1 = [msg 2, msg 3] := by
  have h := (history_replace_truncates 2 [msg 1, msg 2, msg 3] (by decide) (by simp)).1
  simpa using h

/-- C10: `getMessages` with `limit = 0` returns the whole buffer, the
same result as calling it with no limit, because `if (limit)` tests
truthiness and `0` is falsy. -/
theorem getMessages_zero_limit (hist : List IMessage) :
    getMessages hist (some 0) = hist ∧ getMessages hist none = hist ∧
    getMessages hist (some 0) = getMessages hist none := by
  simp [getMessages]

lemma scheduleReconnection_of_stopped (s : ClientState)
    (h : s.shouldReconnect = false) : scheduleReconnection s = s := by
  simp [scheduleReconnection, h]

lemma disconnect_eq (s : ClientState) :
    disconnect s =
      { s with shouldReconnect := false, reconnectTimeout := none, socket := none,
               liveTransports :=
                 (match s.socket with
                  | some sid => s.liveTransports.filter (fun t => t != sid)
                  | none => s.liveTransports),
               isConnected := false, isReconnecting := false } := by
  obtain ⟨sock, conn, ra, rt, ir, sr, mx, lt, ni, wd, ev, sc, ca⟩ := s
  cases sock <;> cases rt <;> simp [disconnect]

/-- Final state of a client with `maxReconnectAttempts = 2` after the
initial `connect()` and three `connect_error` reports in a row, the
first of which arms a backoff timer that fires in between. -/
def errorTraceFinal : ClientState :=
  run (connect (mkClient 2))
    [SEvent.sockConnectError, SEvent.timerFire, SEvent.sockConnectError,
     SEvent.timerFire, SEvent.sockConnectError]

/-- C1: with `maxReconnectAttempts = 2` and three `connect_error`
reports in a row, the code schedules only one reconnect (the stuck
`isReconnecting` flag swallows the later failures), never emits
`maxReconnectsReached`, and wedges with no timer armed after two total
connect attempts — not the two reconnects plus one
`maxReconnectsReached` the claim expects. -/
theorem connect_error_thrice_run :
    errorTraceFinal.scheduledReconnects = 1 ∧
    errorTraceFinal.events.count EmittedEvent.maxReconnectsReached = 0 ∧
    errorTraceFinal.reconnectTimeout = none ∧
    errorTraceFinal.isReconnecting = true ∧
    errorTraceFinal.connectAttempts = 2 := by
  decide

/-- C2: whenever `scheduleReconnection` arms the timer for attempt
`k` (for `k` in `1..6`), the scheduled delay equals
`min(1000 * 2^(k-1), 16000)`, i.e. the sequence
`[1000, 2000, 4000, 8000, 16000, 16000]`. -/
theorem backoff_delay_sequence (k : Nat) (s : ClientState)
    (h1 : 1 ≤ k) (h6 : k ≤ 6)
    (hs : s.shouldReconnect = true) (hr : s.isReconnecting = false)
    (ha : s.reconnectAttempts = k - 1)
    (hm : s.reconnectAttempts < s.maxReconnectAttempts) :
    (scheduleReconnection s).reconnectAttempts = k ∧
    (scheduleReconnection s).reconnectTimeout =
      some (min (1000 * 2 ^ (k - 1)) 16000) ∧
    (scheduleReconnection s).reconnectTimeout =
      some ([1000, 2000, 4000, 8000, 16000, 16000].getD (k - 1) 0) := by
  have hguard : (s.isReconnecting || !s.shouldReconnect) = false := by
    simp [hs, hr]
  simp only [scheduleReconnection, hguard, Bool.false_eq_true, if_false]
  rw [if_neg (by omega)]
  simp only [ha]
  have hk : k - 1 + 1 = k := by omega
  rw [hk]
  refine ⟨rfl, rfl, ?_⟩
  interval_cases k <;> decide

theorem backoff_delay_sequence_witness :
    (scheduleReconnection { mkClient 6 with reconnectAttempts := 4 }).reconnectAttempts = 5 ∧
    (scheduleReconnection { mkClient 6 with reconnectAttempts := 4 }).reconnectTimeout =
      some 16000 := by
  have h := backoff_delay_sequence 5 { mkClient 6 with reconnectAttempts := 4 }
    (by decide) (by decide) (by decide) (by decide) (by decide) (by decide)
  exact ⟨h.1, by rw [h.2.1]; decide⟩

/-- C5 counterexample: two `connect()` calls from a fresh client leave
two live transports — the first transport is never closed, refuting
"at most one live transport in every reachable state". -/
theorem double_connect_two_transports :
    (connect (connect (mkClient 5))).liveTransports = [0, 1] ∧
    (connect (connect (mkClient 5))).socket = some 1 := by
  decide

/-- C5 amended: the socket field always references the single newest
transport, but `connect()` never closes a previous transport: it adds
one live transport and keeps every existing one, so a `connect()`
issued while a previous transport is live leaves two live
transports. -/
theorem connect_leaks_previous_transport (s : ClientState) :
    (connect s).liveTransports.length = s.liveTransports.length + 1 ∧
    (connect s).socket = some s.nextId ∧
    s.liveTransports.Sublist (connect s).liveTransports := by
  refine ⟨?_, ?_, ?_⟩ <;>
    simp only [connect] <;> split <;>
      simp [List.sublist_append_left]

/-- C6 counterexample: after `connect()` then `disconnect()` the
20-second connect-timeout watchdog is still armed — `disconnect()`
has no reference to it and cannot cancel it, refuting "neither timer
remains armed afterwards". -/
theorem watchdog_survives_disconnect :
    (disconnect (connect (mkClient 5))).watchdogs = 1 := by
  decide

/-- C6 amended: once `shouldReconnect` is false it stays false and no
subsequent event schedules a reconnect or arms a reconnect timer;
`disconnect()` cancels the pending reconnect timer, but leaves every
connect-timeout watchdog armed — a watchdog firing after
`disconnect()` schedules nothing, closes nothing and emits nothing. -/
theorem no_reconnect_after_stop :
    (∀ (s : ClientState) (e : SEvent), s.shouldReconnect = false →
      (step e s).shouldReconnect = false ∧
      (step e s).scheduledReconnects = s.scheduledReconnects ∧
      (s.reconnectTimeout = none → (step e s).reconnectTimeout = none)) ∧
    (∀ s : ClientState,
      (disconnect s).reconnectTimeout = none ∧
      (disconnect s).shouldReconnect = false ∧
      (disconnect s).watchdogs = s.watchdogs ∧
      (fireWatchdog (disconnect s)).scheduledReconnects =
        (disconnect s).scheduledReconnects ∧
      (fireWatchdog (disconnect s)).liveTransports =
        (disconnect s).liveTransports ∧
      (fireWatchdog (disconnect s)).events = (disconnect s).events) := by
  constructor
  · intro s e h
    cases e with
    | sockConnect =>
      simp [step, onSocketConnect, h]
    | sockDisconnect r =>
      simp [step, onSocketDisconnect, h]
    | sockConnectError =>
      have h1 : ({ s with events := s.events ++ [EmittedEvent.errorEv] } :
          ClientState).shouldReconnect = false := h
      simp [step, onConnectError, h, scheduleReconnection_of_stopped _ h1]
    | timerFire =>
      cases ht : s.reconnectTimeout with
      | none => simp [step, fireReconnectTimer, ht, h]
      | some d =>
        simp [step, fireReconnectTimer, ht, connect, h]
    | watchdogFire =>
      simp only [step, fireWatchdog]
      split
      · simp [h]
      · split
        · rw [scheduleReconnection_of_stopped _ (by simpa using h)]
          simp [h]
        · simp [h]
    | callConnect =>
      simp only [step, connect]
      split <;> simp [h]
    | callDisconnect =>
      simp [disconnect_eq, step]
  · intro s
    have hw : ∀ t : ClientState, t.socket = none →
        (fireWatchdog t).scheduledReconnects = t.scheduledReconnects ∧
        (fireWatchdog t).liveTransports = t.liveTransports ∧
        (fireWatchdog t).events = t.events := by
      intro t ht
      simp only [fireWatchdog]
      split
      · simp
      · simp [ht]
    have hsock : (disconnect s).socket = none := by simp [disconnect_eq]
    have h1 := hw (disconnect s) hsock
    exact ⟨by simp [disconnect_eq], by simp [disconnect_eq], by simp [disconnect_eq],
      h1.1, h1.2.1, h1.2.2⟩

theorem no_reconnect_after_stop_witness :
    (step SEvent.sockConnectError (disconnect (mkClient 5))).shouldReconnect = false ∧
    (step SEvent.sockConnectError (disconnect (mkClient 5))).scheduledReconnects =
      (disconnect (mkClient 5)).scheduledReconnects := by
  have h := no_reconnect_after_stop.1 (disconnect (mkClient 5))
    SEvent.sockConnectError (by decide)
  exact ⟨h.1, h.2.1⟩

/-- C7: `disconnect()` from any state reaches the `Stopped`
configuration (reconnection disabled, no pending reconnect timer, no
socket, not connected, not reconnecting) and calling it a second time
changes nothing. -/
theorem disconnect_stopped_idempotent (s : ClientState) :
    Stopped (disconnect s) ∧ disconnect (disconnect s) = disconnect s := by
  obtain ⟨sock, conn, ra, rt, ir, sr, mx, lt, ni, wd, ev, sc, ca⟩ := s
  cases sock <;> cases rt <;> simp [disconnect, Stopped]

/-- Observable effects of a protocol-event handler: an event emitted to
downstream consumers, a request sent to the server over the socket, or
a call to `scheduleReconnection`. -/
inductive Effect where
  | emitEv (e : EmittedEvent)
  | send (request : String)
  | scheduleRecon
deriving DecidableEq, Repr

/-- JavaScript `a || b` on an optional string: `null`/`undefined` and
the empty string are falsy. -/
def jsOrString (a : Option String) (b : String) : String :=
  match a with
  | some v => if v = "" then b else v
  | none => b

/-- `requestMessageHistory` (lines 224-244): when a socket exists and
the client is connected, send the primary history request and, after a
delay re-checking the same guard, the three fallback variants. -/
def requestMessageHistory (socketPresent isConnected : Bool) : List Effect :=
  if socketPresent && isConnected then
    [Effect.send "getMessageHistory"] ++
      (if socketPresent && isConnected then
        [Effect.send "messageHistory", Effect.send "getHistory",
         Effect.send "fetchMessages"]
      else [])
  else []

/-- The `joinRoomResponse` handler (lines 188-196): on success request
the message history; on failure emit a single `serverError` carrying
the server-provided reason (or a fixed fallback text). -/
def onJoinRoomResponse (socketPresent isConnected : Bool) (success : Bool)
    (message : Option String) : List Effect :=
  if success then requestMessageHistory socketPresent isConnected
  else [Effect.emitEv (EmittedEvent.serverError
          (jsOrString message "Failed to join room"))]

/-- C8: a `joinRoomResponse` with `success = false` and a non-empty
reason emits exactly one `serverError` carrying that reason, sends no
message-history request, and does not call `scheduleReconnection`. -/
theorem join_failure_server_error (socketPresent isConnected : Bool)
    (r : String) (hr : r ≠ "") :
    onJoinRoomResponse socketPresent isConnected false (some r) =
      [Effect.emitEv (EmittedEvent.serverError r)] ∧
    (∀ e ∈ onJoinRoomResponse socketPresent isConnected false (some r),
      e ≠ Effect.scheduleRecon ∧ ∀ q, e ≠ Effect.send q) := by
  have key : onJoinRoomResponse socketPresent isConnected false (some r) =
      [Effect.emitEv (EmittedEvent.serverError r)] := by
    simp [onJoinRoomResponse, jsOrString, hr]
  refine ⟨key, ?_⟩
  rw [key]
  simp

theorem join_failure_server_error_witness :
    onJoinRoomResponse true true false (some "room full") =
      [Effect.emitEv (EmittedEvent.serverError "room full")] :=
  (join_failure_server_error true true "room full" (by decide)).1

/-- State of the `chat-debug` route module: the `activeConnections`
map as an association list from connection key to (room id, session
number), the sessions on which `disconnect()` has been called, and a
counter generating session numbers. -/
structure RouteState where
  entries : List (String × String × Nat)
  disconnectedSessions : List Nat
  nextSession : Nat
deriving DecidableEq, Repr

/-- `activeConnections.get(key)`: exact-key lookup. -/
def regGet (key : String) (es : List (String × String × Nat)) : Option Nat :=
  (es.find? (fun e => e.1 == key)).map (fun e => e.2.2)

/-- `activeConnections.delete(key)`. -/
def regDelete (key : String) (es : List (String × String × Nat)) :
    List (String × String × Nat) :=
  es.filter (fun e => e.1 != key)

/-- The start of a `GET /api/chat-debug` stream (route.ts, lines
26-43): look up `activeConnections.get(roomId)` and, when an entry is
found, disconnect it and delete the `roomId` key; then create a new
client and store it under the key
`roomId + "-" + username + "-" + Date.now()`. -/
def startRequest (roomId username time : String) (st : RouteState) : RouteState :=
  let st1 :=
    match regGet roomId st.entries with
    | some sid =>
        { st with disconnectedSessions := st.disconnectedSessions ++ [sid],
                  entries := regDelete roomId st.entries }
    | none => st
  let connectionId := roomId ++ "-" ++ username ++ "-" ++ time
  { st1 with entries := st1.entries ++ [(connectionId, roomId, st1.nextSession)],
             nextSession := st1.nextSession + 1 }

/-- The route module starts with an empty `activeConnections` map. -/
def emptyRoute : RouteState := { entries := [], disconnectedSessions := [], nextSession := 0 }

/-- Registry state after two start requests for the same room `"X"`. -/
def doubleStart : RouteState :=
  startRequest "X" "u2" "t2" (startRequest "X" "u1" "t1" emptyRoute)

/-- C9: after a second start request for room `"X"`, the registry holds
two entries for that room and the first session was never disconnected:
entries are stored under `roomId-username-timestamp` keys but looked up
under the bare `roomId`, so the cleanup branch never finds the old
session — contradicting the claim (and the code's own cleanup
comment). -/
theorem second_start_leaves_two_entries :
    (doubleStart.entries.filter (fun e => e.2.1 == "X")).length = 2 ∧
    doubleStart.disconnectedSessions = [] ∧
    doubleStart.entries =
      [("X-u1-t1", "X", 0), ("X-u2-t2", "X", 1)] := by
  constructor
  · rfl
  · constructor <;> rfl

end PumpChat
